import Mathlib

/-!
Verification development for the ServiceNow number-addition client
(src/main.py).  The Python source is shallowly embedded:

* JSON values are the inductive type `JValue`; Python numbers are modelled
  as exact rationals (`ℚ`).  No claim depends on binary floating-point
  rounding, only on which values flow where.
* The regex `[-+]?\d*\.?\d+` together with `re.findall` is embedded as
  `findAll` (leftmost, greedy, non-overlapping matching over a character
  list); `float(...)` on a string is embedded as `pyFloat` (restricted to
  the sign/digits/dot fragment, the only characters the pattern can emit).
* `requests.post` is abstracted as a function `net : Request → HttpOutcome`
  passed to `add_numbers`; `add_numbers` additionally returns the list of
  requests it issued, making "no network call was made" provable.
* Python operations that can raise (`x in data` on a non-iterable,
  indexing a non-dict, `.get` on a non-dict) return `Except String _`;
  the `except Exception` handler of the source maps the error string into
  the "Unexpected error: ..." response.  The exact wording of CPython
  exception texts is abridged; no theorem depends on it.
-/

/-- JSON values as decoded by `response.json()` / `json.loads`.
Integers and floats are kept apart (Python distinguishes them), and
booleans are their own constructor even though Python `bool` is a
subclass of `int` — that subclassing is modelled in `isPyNumber`. -/
inductive JValue where
  | obj (entries : List (String × JValue))
  | arr (elems : List JValue)
  | str (s : String)
  | jint (n : Int)
  | jfloat (q : ℚ)
  | bool (b : Bool)
  | null

/-- `isinstance(v, (int, float))` on a decoded JSON value.  Python `bool`
is a subclass of `int`, so `isinstance(True, (int, float))` is `True`. -/
def isPyNumber : JValue → Bool
  | JValue.jint _ => true
  | JValue.jfloat _ => true
  | JValue.bool _ => true
  | _ => false

/-- `float(v)` for a value accepted by `isPyNumber` (`float(True) = 1.0`,
`float(False) = 0.0`); other constructors are unreachable under the
`isPyNumber` guard and map to 0. -/
def pyFloatOfNum : JValue → ℚ
  | JValue.jint n => (n : ℚ)
  | JValue.jfloat q => q
  | JValue.bool b => if b then 1 else 0
  | _ => 0

/-- `str(v)` as used inside an f-string.  Only the `.str` branch is
exercised by any theorem; the container branches are abridged. -/
def pyStr : JValue → String
  | JValue.str s => s
  | JValue.jint n => toString n
  | JValue.jfloat q => toString q
  | JValue.bool b => if b then "True" else "False"
  | JValue.null => "None"
  | JValue.obj _ => "dict"
  | JValue.arr _ => "list"

/-- Substring test, modelling Python `pat in s` for strings. -/
def hasSubstr (pat : List Char) : List Char → Bool
  | [] => decide (pat = [])
  | c :: r => pat.isPrefixOf (c :: r) || hasSubstr pat r

/-- Python `key in data`.  Dicts test keys, lists test membership by
equality (only a string element can equal the string key), strings test
substring containment, and every other value raises `TypeError`
("argument ... is not iterable"), caught by the catch-all handler. -/
def pyContains (key : String) : JValue → Except String Bool
  | JValue.obj m => Except.ok (m.lookup key).isSome
  | JValue.arr xs =>
      Except.ok (xs.any fun v => match v with
        | JValue.str s => decide (s = key)
        | _ => false)
  | JValue.str s => Except.ok (hasSubstr key.toList s.toList)
  | _ => Except.error "argument is not iterable"

/-- Python `data[key]` with a string key.  Only dicts support it; strings
and lists raise `TypeError` (string/list indices must be integers), the
rest are not subscriptable.  The dict-miss `KeyError` branch is always
guarded by `pyContains` in the source. -/
def pyIndex (key : String) : JValue → Except String JValue
  | JValue.obj m =>
      match m.lookup key with
      | some v => Except.ok v
      | none => Except.error ("KeyError: " ++ key)
  | JValue.str _ => Except.error "string indices must be integers"
  | JValue.arr _ => Except.error "list indices must be integers, not str"
  | _ => Except.error "value is not subscriptable"

/-- Python `data.get(key, default)`.  Only dicts have `.get`; every other
value raises `AttributeError`, caught by the catch-all handler. -/
def pyGet (data : JValue) (key : String) (default : JValue) : Except String JValue :=
  match data with
  | JValue.obj m => Except.ok ((m.lookup key).getD default)
  | _ => Except.error "object has no attribute get"

/-- Maximal run of ASCII digits at the head of the list, with the rest
(the behaviour of `\d*` / `\d+` at a fixed position). -/
def digitRun : List Char → List Char × List Char
  | [] => ([], [])
  | c :: r =>
      if c.isDigit then ((digitRun r).1.cons c, (digitRun r).2)
      else ([], c :: r)

/-- Match of the unsigned part `\d*\.?\d+` of the pattern, given the
maximal digit run `d1` at the current position and the input after it.
Greedy with backtracking: digits, then a dot only if digits follow it
(if the dot has no digit after it, `\d*` gives one digit back to `\d+`
and the dot is left unmatched, so the match is the digit run alone);
with no digits before the dot, `.d+` alone matches. -/
def matchUnsignedAux : List Char → List Char → Option (List Char × List Char)
  | d1, [] => if d1 = [] then none else some (d1, [])
  | d1, c :: r2 =>
      if c = '.' then
        let q := digitRun r2
        if q.1 = [] then
          if d1 = [] then none else some (d1, c :: r2)
        else some (d1 ++ '.' :: q.1, q.2)
      else if d1 = [] then none else some (d1, c :: r2)

def matchUnsigned (s : List Char) : Option (List Char × List Char) :=
  matchUnsignedAux (digitRun s).1 (digitRun s).2

/-- Match of the full pattern `[-+]?\d*\.?\d+` at the head of `s`.  A
leading sign is consumed only if the unsigned part matches after it
(with the sign consumed, the empty-sign alternative cannot match either,
since a sign character starts no unsigned match). -/
def matchAt : List Char → Option (List Char × List Char)
  | [] => none
  | c :: r =>
      if c = '+' ∨ c = '-' then
        (matchUnsigned r).map fun p => (c :: p.1, p.2)
      else matchUnsigned (c :: r)

/-- `re.findall` driver: scan left to right; on a match, emit it and
resume after it; otherwise advance one character.  Every match consumes
at least one character, so fuel `s.length` never runs out. -/
def findAllGo : Nat → List Char → List (List Char)
  | 0, _ => []
  | _ + 1, [] => []
  | fuel + 1, c :: r =>
      match matchAt (c :: r) with
      | some (t, rest) => t :: findAllGo fuel rest
      | none => findAllGo fuel r

/-- `re.findall(r"[-+]?\d*\.?\d+", s)`. -/
def findAll (s : List Char) : List (List Char) :=
  findAllGo s.length s

/-- Python `str.strip()` whitespace test (ASCII fragment). -/
def isPySpace (c : Char) : Bool :=
  c = ' ' || c = '\t' || c = '\n' || c = '\r' || c = '\x0b' || c = '\x0c'

/-- `query.strip()`. -/
def pyStrip (s : List Char) : List Char :=
  ((s.dropWhile isPySpace).reverse.dropWhile isPySpace).reverse

/-- `query.strip().lower()` from `process_query`, as a character list. -/
def pyClean (query : String) : List Char :=
  (pyStrip query.toList).map Char.toLower

/-- Numeric value of a digit string. -/
def digitsNat (d : List Char) : Nat :=
  d.foldl (fun a c => a * 10 + (c.toNat - '0'.toNat)) 0

/-- `float(tok)` for a token drawn from the pattern alphabet, after an
optional sign has been stripped: digit run, optional dot, digit run,
with at least one digit overall ("5", "5.", "5.25", ".25" are valid;
"", "." are not).  Exponents, underscores, inf/nan and leading
whitespace of CPython float parsing are unreachable from the pattern
and omitted. -/
def pyFloatCore (s : List Char) : Option ℚ :=
  let p := digitRun s
  match p.2 with
  | [] => if p.1 = [] then none else some ((digitsNat p.1 : ℚ))
  | c :: r2 =>
      if c = '.' then
        let q := digitRun r2
        if q.2 = [] then
          if p.1 = [] ∧ q.1 = [] then none
          else some ((digitsNat p.1 : ℚ) + (digitsNat q.1 : ℚ) / (10 : ℚ) ^ q.1.length)
        else none
      else none

/-- `float(tok)`: optional sign, then the unsigned core. -/
def pyFloat : List Char → Option ℚ
  | [] => none
  | c :: r =>
      if c = '+' then pyFloatCore r
      else if c = '-' then (pyFloatCore r).map Neg.neg
      else pyFloatCore (c :: r)

/-- `[float(num) for num in nums]` wrapped in try/except ValueError:
all-or-nothing conversion. -/
def pyFloats : List (List Char) → Option (List ℚ)
  | [] => some []
  | t :: ts =>
      match pyFloat t, pyFloats ts with
      | some x, some xs => some (x :: xs)
      | _, _ => none


/-- The three credential strings held by `ServiceNowClient`.  `os.getenv`
returning `None` is modelled as `""`: both are falsy, and only their
truthiness is observed before use. -/
structure Credentials where
  instance_url : String
  username : String
  password : String

/-- `AddNumbersResponse` (pydantic model): success flag, message, and
optional numeric result. -/
structure AddNumbersResponse where
  success : Bool
  message : String
  result : Option ℚ
deriving DecidableEq

/-- One outgoing `requests.post` call: URL, JSON payload, basic-auth
pair, headers, timeout (seconds). -/
structure Request where
  url : String
  payload : JValue
  auth : String × String
  headers : List (String × String)
  timeout : Nat

/-- `ServiceNowClient.get_headers`. -/
def get_headers : List (String × String) :=
  [("Content-Type", "application/json"), ("Accept", "application/json")]

/-- Outcome of the `requests.post` call: a response with status code and
the result of attempting to parse its body as JSON (`none` models
`json.JSONDecodeError` from `response.json()`), a
`requests.RequestException` (timeout, connection refused, DNS failure,
...) with its text, or any other exception raised during the call. -/
inductive HttpOutcome where
  | response (status : Nat) (bodyJson : Option JValue)
  | requestException (desc : String)
  | otherException (desc : String)

/-- The request `add_numbers` builds: URL is the stored instance URL
concatenated, as is, with the fixed path; payload is the JSON object
with keys num1, num2. -/
def mkReq (c : Credentials) (num1 num2 : ℚ) : Request :=
  { url := c.instance_url ++ "/api/1756572/addition_of_two_numbers/add"
    payload := JValue.obj [("num1", JValue.jfloat num1), ("num2", JValue.jfloat num2)]
    auth := (c.username, c.password)
    headers := get_headers
    timeout := 30 }

/-- Response handling of `add_numbers` (src/main.py lines 84-129): JSON
parse check first, then the 200 branch unwrapping the nested
result/result envelope, else the error branch reading
`error.message` via `.get`.  A `.error` from the Python-semantics
helpers models an exception reaching the `except Exception` handler
(lines 138-144). -/
def handleResponse (status : Nat) (bodyJson : Option JValue) : AddNumbersResponse :=
  match bodyJson with
  | none => ⟨false, "Invalid JSON response from server", none⟩
  | some response_data =>
    if status = 200 then
      match pyContains "result" response_data with
      | Except.error e => ⟨false, "Unexpected error: " ++ e, none⟩
      | Except.ok true =>
        match pyIndex "result" response_data with
        | Except.error e => ⟨false, "Unexpected error: " ++ e, none⟩
        | Except.ok result_dict =>
          match result_dict with
          | JValue.obj m2 =>
            match m2.lookup "result" with
            | some result_value =>
                if isPyNumber result_value then
                  ⟨true, "Addition successful", some (pyFloatOfNum result_value)⟩
                else ⟨false, "Invalid response format from API", none⟩
            | none => ⟨false, "Invalid response format from API", none⟩
          | _ => ⟨false, "Invalid response format from API", none⟩
      | Except.ok false => ⟨false, "Invalid response format from API", none⟩
    else
      match pyGet response_data "error" (JValue.obj []) with
      | Except.error e => ⟨false, "Unexpected error: " ++ e, none⟩
      | Except.ok errVal =>
        match pyGet errVal "message" (JValue.str "Unknown error") with
        | Except.error e => ⟨false, "Unexpected error: " ++ e, none⟩
        | Except.ok msgVal => ⟨false, "API Error: " ++ pyStr msgVal, none⟩

/-- `ServiceNowClient.add_numbers`.  The network is the function `net`;
the returned list is the trace of requests actually issued, so "no
network call" is the empty trace.  The `requests.RequestException` and
bare `Exception` handlers become the last two branches. -/
def add_numbers (c : Credentials) (num1 num2 : ℚ) (net : Request → HttpOutcome) :
    AddNumbersResponse × List Request :=
  if c.instance_url = "" ∨ c.username = "" ∨ c.password = "" then
    (⟨false, "ServiceNow credentials not configured", none⟩, [])
  else
    let req := mkReq c num1 num2
    match net req with
    | HttpOutcome.response status bodyJson => (handleResponse status bodyJson, [req])
    | HttpOutcome.requestException d => (⟨false, "Request failed: " ++ d, none⟩, [req])
    | HttpOutcome.otherException d => (⟨false, "Unexpected error: " ++ d, none⟩, [req])

/-- `str.rstrip(c)` for the slash character: drop every trailing `/`. -/
def rstripSlashes (s : String) : String :=
  String.mk ((s.toList.reverse.dropWhile (fun c => c = '/')).reverse)

/-- `ServiceNowClient.__init__`: read the three environment variables;
only the instance URL has its trailing slashes stripped.  The sidebar
update path of `main` (lines 204-209) stores the entered strings in the
fields verbatim, which is why `Credentials` carries arbitrary strings. -/
def clientInit (env : String → Option String) : Credentials :=
  { instance_url := rstripSlashes ((env "SERVICENOW_INSTANCE_URL").getD "")
    username := (env "SERVICENOW_USERNAME").getD ""
    password := (env "SERVICENOW_PASSWORD").getD "" }

/-- Rendering of the client result by `process_query` (lines 172-175).
`sf` models Python float formatting inside the f-string; no claim
depends on its exact output.  A `None` result under `success` would
print as "None". -/
def renderOutcome (sf : ℚ → String) (r : AddNumbersResponse) : String :=
  if r.success then
    "Result: " ++ (match r.result with
      | some v => sf v
      | none => "None")
  else "Error: " ++ r.message

/-- `process_query` (lines 146-179): clean the query, find all numeric
substrings, convert them all to float (all-or-nothing), branch on the
count (0, 1, exactly 2, more than 2), and on exactly two call the
client.  The client call is abstracted as `addFn`. -/
def process_query (addFn : ℚ → ℚ → AddNumbersResponse) (sf : ℚ → String)
    (query : String) : String :=
  match pyFloats (findAll (pyClean query)) with
  | none => "Error: Found invalid number format in the query"
  | some [] => "Error: No numbers found in the query. Please provide two numbers."
  | some [_] => "Error: Only one number found. Please provide exactly two numbers."
  | some [x1, x2] => renderOutcome sf (addFn x1 x2)
  | some _ => "Error: More than two numbers found. Please provide exactly two numbers."

/-! Concrete stand-ins used by witnesses: a client function, a float
formatter, credentials, and canned network behaviours. -/

def addStub : ℚ → ℚ → AddNumbersResponse :=
  fun x y => ⟨true, "Addition successful", some (x + y)⟩

def showStub : ℚ → String := fun _ => ""

def credsOk : Credentials :=
  ⟨"https://dev341352.service-now.com", "admin", "secret"⟩

def credsNoUrl : Credentials := ⟨"", "admin", "secret"⟩

def credsSlash : Credentials := ⟨"https://x/", "admin", "secret"⟩

def netWith (o : HttpOutcome) : Request → HttpOutcome := fun _ => o

/-- A numeric JSON value in the sense of the specification: an integer
or float literal.  JSON `true`/`false` are not numbers, although the
code accepts them (see `isPyNumber`). -/
def isJsonNumber : JValue → Bool
  | JValue.jint _ => true
  | JValue.jfloat _ => true
  | _ => false

/-! Sanity evaluations of the matcher, mirroring Python findall and
float behaviour on the pattern. -/


example : findAll "what is the sum of 8 and 12?".toList = [['8'], ['1', '2']] := by decide
example : findAll "1.2.3".toList = [['1', '.', '2'], ['.', '3']] := by decide
example : findAll "++5 and -0.25".toList = [['+', '5'], ['-', '0', '.', '2', '5']] := by decide
example : findAll "5.".toList = [['5']] := by decide
example : findAll "no digits here".toList = [] := by decide
example : pyFloat ['-', '0', '.', '2', '5'] = some (-(1 / 4 : ℚ)) := by
  simp [pyFloat, pyFloatCore, digitRun, digitsNat, List.foldl]
  norm_num
example : pyFloat ['.', '5'] = some (1 / 2 : ℚ) := by
  simp [pyFloat, pyFloatCore, digitRun, digitsNat, List.foldl]
  norm_num
example : pyFloat ['8'] = some (8 : ℚ) := by
  simp [pyFloat, pyFloatCore, digitRun, digitsNat, List.foldl]


/-! General lemmas about the matcher and the float parser. -/

theorem digitRun_all (s : List Char) : (digitRun s).1.all Char.isDigit = true := by
  induction s with
  | nil => rfl
  | cons c r ih =>
      by_cases h : c.isDigit
      · simp [digitRun, h, ih]
      · simp [digitRun, h]

theorem digitRun_append (d r : List Char) (h : d.all Char.isDigit = true) :
    digitRun (d ++ r) = (d ++ (digitRun r).1, (digitRun r).2) := by
  induction d with
  | nil => simp
  | cons c cs ih =>
      simp only [List.all_cons, Bool.and_eq_true] at h
      simp [digitRun, h.1, ih h.2]

theorem digitRun_of_all (d : List Char) (h : d.all Char.isDigit = true) :
    digitRun d = (d, []) := by
  have h2 := digitRun_append d [] h
  simpa [digitRun] using h2

theorem digitRun_dot (r : List Char) : digitRun ('.' :: r) = ([], '.' :: r) := by
  simp [digitRun]

theorem digitRun_flat (s : List Char) : (digitRun s).1 ++ (digitRun s).2 = s := by
  induction s with
  | nil => rfl
  | cons c r ih =>
      by_cases h : c.isDigit
      · simp [digitRun, h, ih]
      · simp [digitRun, h]

theorem pyFloatCore_digits (d : List Char) (h1 : d.all Char.isDigit = true)
    (h2 : ¬d = []) : (pyFloatCore d).isSome = true := by
  simp [pyFloatCore, digitRun_of_all d h1, h2]

theorem pyFloatCore_digits_dot (d1 d2 : List Char) (h1 : d1.all Char.isDigit = true)
    (h2 : d2.all Char.isDigit = true) (h3 : ¬d2 = []) :
    (pyFloatCore (d1 ++ '.' :: d2)).isSome = true := by
  simp [pyFloatCore, digitRun_append d1 ('.' :: d2) h1, digitRun_dot,
    digitRun_of_all d2 h2, h3]

theorem isDigit_ne_plus (c : Char) (h : c.isDigit = true) : ¬c = '+' := by
  intro he; subst he; exact absurd h (by decide)

theorem isDigit_ne_minus (c : Char) (h : c.isDigit = true) : ¬c = '-' := by
  intro he; subst he; exact absurd h (by decide)

theorem pyFloat_no_sign (c : Char) (r : List Char) (h1 : ¬c = '+') (h2 : ¬c = '-') :
    pyFloat (c :: r) = pyFloatCore (c :: r) := by
  simp [pyFloat, h1, h2]

theorem all_head_digit (d : List Char) (h1 : d.all Char.isDigit = true) (h2 : ¬d = []) :
    ∃ c cs, d = c :: cs ∧ c.isDigit = true := by
  cases d with
  | nil => exact absurd rfl h2
  | cons c cs =>
      simp only [List.all_cons, Bool.and_eq_true] at h1
      exact ⟨c, cs, rfl, h1.1⟩

theorem digitsTok_parse (d : List Char) (hall : d.all Char.isDigit = true)
    (hd : ¬d = []) :
    (pyFloatCore d).isSome = true ∧ pyFloat d = pyFloatCore d := by
  obtain ⟨c0, cs, he, hdig⟩ := all_head_digit d hall hd
  refine ⟨pyFloatCore_digits d hall hd, ?_⟩
  rw [he]
  exact pyFloat_no_sign c0 cs (isDigit_ne_plus c0 hdig) (isDigit_ne_minus c0 hdig)

theorem dotTok_parse (d1 d2 : List Char) (h1 : d1.all Char.isDigit = true)
    (h2 : d2.all Char.isDigit = true) (hq : ¬d2 = []) :
    (pyFloatCore (d1 ++ '.' :: d2)).isSome = true ∧
      pyFloat (d1 ++ '.' :: d2) = pyFloatCore (d1 ++ '.' :: d2) := by
  refine ⟨pyFloatCore_digits_dot d1 d2 h1 h2 hq, ?_⟩
  by_cases hd : d1 = []
  · subst hd
    simpa using pyFloat_no_sign '.' d2 (by decide) (by decide)
  · obtain ⟨c0, cs, he, hdig⟩ := all_head_digit d1 h1 hd
    rw [he, List.cons_append]
    exact pyFloat_no_sign c0 _ (isDigit_ne_plus c0 hdig) (isDigit_ne_minus c0 hdig)

/-- A token produced by the unsigned matcher is accepted by the float
parser, and it starts with a digit or a dot, so the sign branch of
`pyFloat` is not taken on it. -/
theorem matchUnsignedAux_parse (d1 r1 t rest : List Char)
    (hall : d1.all Char.isDigit = true)
    (h : matchUnsignedAux d1 r1 = some (t, rest)) :
    (pyFloatCore t).isSome = true ∧ pyFloat t = pyFloatCore t := by
  cases r1 with
  | nil =>
      simp only [matchUnsignedAux] at h
      by_cases hd : d1 = []
      · rw [if_pos hd] at h; simp at h
      · rw [if_neg hd] at h
        simp only [Option.some.injEq, Prod.mk.injEq] at h
        obtain ⟨h1, h2⟩ := h
        subst h1
        exact digitsTok_parse d1 hall hd
  | cons c r2 =>
      simp only [matchUnsignedAux] at h
      by_cases hc : c = '.'
      · rw [if_pos hc] at h
        by_cases hq : (digitRun r2).1 = []
        · rw [if_pos hq] at h
          by_cases hd : d1 = []
          · rw [if_pos hd] at h; simp at h
          · rw [if_neg hd] at h
            simp only [Option.some.injEq, Prod.mk.injEq] at h
            obtain ⟨h1, h2⟩ := h
            subst h1
            exact digitsTok_parse d1 hall hd
        · rw [if_neg hq] at h
          simp only [Option.some.injEq, Prod.mk.injEq] at h
          obtain ⟨h1, h2⟩ := h
          subst h1
          exact dotTok_parse d1 _ hall (digitRun_all r2) hq
      · rw [if_neg hc] at h
        by_cases hd : d1 = []
        · rw [if_pos hd] at h; simp at h
        · rw [if_neg hd] at h
          simp only [Option.some.injEq, Prod.mk.injEq] at h
          obtain ⟨h1, h2⟩ := h
          subst h1
          exact digitsTok_parse d1 hall hd

theorem matchUnsigned_parse (s t rest : List Char)
    (h : matchUnsigned s = some (t, rest)) :
    (pyFloatCore t).isSome = true ∧ pyFloat t = pyFloatCore t :=
  matchUnsignedAux_parse (digitRun s).1 (digitRun s).2 t rest (digitRun_all s) h

/-- Every token matched by the full pattern parses as a float. -/
theorem matchAt_parse (s t rest : List Char) (h : matchAt s = some (t, rest)) :
    (pyFloat t).isSome = true := by
  cases s with
  | nil => simp [matchAt] at h
  | cons c r =>
      simp only [matchAt] at h
      by_cases hc : c = '+' ∨ c = '-'
      · rw [if_pos hc] at h
        rcases hm : matchUnsigned r with _ | ⟨t', rest'⟩
        · rw [hm] at h; simp at h
        · rw [hm] at h
          simp only [Option.map_some', Option.some.injEq, Prod.mk.injEq] at h
          obtain ⟨h1, h2⟩ := h
          subst h1
          obtain ⟨hcore, hns⟩ := matchUnsigned_parse r t' rest' hm
          rcases hc with hc | hc
          · subst hc; simpa [pyFloat] using hcore
          · subst hc; simpa [pyFloat] using hcore
      · rw [if_neg hc] at h
        obtain ⟨hcore, hns⟩ := matchUnsigned_parse _ _ _ h
        rw [hns]
        exact hcore

theorem findAllGo_parse : ∀ (fuel : Nat) (s t : List Char),
    t ∈ findAllGo fuel s → (pyFloat t).isSome = true := by
  intro fuel
  induction fuel with
  | zero => intro s t h; simp [findAllGo] at h
  | succ f ih =>
      intro s t h
      cases s with
      | nil => simp [findAllGo] at h
      | cons c r =>
          simp only [findAllGo] at h
          rcases hm : matchAt (c :: r) with _ | ⟨t', rest⟩
          · rw [hm] at h; exact ih r t h
          · rw [hm] at h
            rcases List.mem_cons.mp h with h1 | h1
            · subst h1; exact matchAt_parse _ _ _ hm
            · exact ih rest t h1

/-- Every substring the pattern finds parses as a float. -/
theorem tokensParse (s t : List Char) (h : t ∈ findAll s) :
    (pyFloat t).isSome = true :=
  findAllGo_parse _ _ _ h

theorem pyFloats_isSome (ts : List (List Char))
    (h : ∀ t ∈ ts, (pyFloat t).isSome = true) : (pyFloats ts).isSome = true := by
  induction ts with
  | nil => simp [pyFloats]
  | cons t ts ih =>
      obtain ⟨x, hx⟩ := Option.isSome_iff_exists.mp (h t (List.mem_cons_self t ts))
      obtain ⟨xs, hxs⟩ := Option.isSome_iff_exists.mp
        (ih fun u hu => h u (List.mem_cons_of_mem _ hu))
      simp [pyFloats, hx, hxs]

theorem pyFloats_length (ts : List (List Char)) :
    ∀ xs : List ℚ, pyFloats ts = some xs → xs.length = ts.length := by
  induction ts with
  | nil => intro xs h; simp [pyFloats] at h; simp [h]
  | cons t ts ih =>
      intro xs h
      rcases h1 : pyFloat t with _ | x
      · rw [pyFloats, h1] at h; simp at h
      · rcases h2 : pyFloats ts with _ | l
        · rw [pyFloats, h1, h2] at h; simp at h
        · rw [pyFloats, h1, h2] at h
          simp only [Option.some.injEq] at h
          subst h
          simp [ih l h2]

theorem pyFloats_two (t1 t2 : List Char) (x1 x2 : ℚ)
    (h1 : pyFloat t1 = some x1) (h2 : pyFloat t2 = some x2) :
    pyFloats [t1, t2] = some [x1, x2] := by
  simp [pyFloats, h1, h2]

/-! Claim theorems. -/

/-- C10: every substring matched by the signed-decimal numeric pattern
parses successfully as a floating-point value, and the all-or-nothing
conversion in `process_query` therefore always succeeds, so the
defensively-checked InvalidNumberFormat branch is unreachable. -/
theorem c10_matched_tokens_parse (s : List Char) (q : String) :
    (∀ t ∈ findAll s, (pyFloat t).isSome = true) ∧
      (pyFloats (findAll (pyClean q))).isSome = true :=
  ⟨fun t ht => tokensParse s t ht,
   pyFloats_isSome _ fun t ht => tokensParse _ t ht⟩

/-- Witness for C10 at the concrete input "only 5 here". -/
theorem c10_witness :
    (pyFloat ['5']).isSome = true ∧
      (pyFloats (findAll (pyClean "only 5 here"))).isSome = true :=
  ⟨(c10_matched_tokens_parse "only 5 here".toList "only 5 here").1 ['5'] (by decide),
   (c10_matched_tokens_parse "only 5 here".toList "only 5 here").2⟩

/-- C1: whenever the pattern matches exactly two substrings of the
cleaned query, `process_query` parses both as floats and passes them to
the client call in left-to-right order of appearance: the earlier match
is num1, the later match num2. -/
theorem c1_operands_in_order (addFn : ℚ → ℚ → AddNumbersResponse)
    (sf : ℚ → String) (q : String) (t1 t2 : List Char)
    (h : findAll (pyClean q) = [t1, t2]) :
    ∃ x1 x2 : ℚ, pyFloat t1 = some x1 ∧ pyFloat t2 = some x2 ∧
      process_query addFn sf q = renderOutcome sf (addFn x1 x2) := by
  have m1 : t1 ∈ findAll (pyClean q) := by rw [h]; simp
  have m2 : t2 ∈ findAll (pyClean q) := by rw [h]; simp
  obtain ⟨x1, hx1⟩ := Option.isSome_iff_exists.mp (tokensParse _ _ m1)
  obtain ⟨x2, hx2⟩ := Option.isSome_iff_exists.mp (tokensParse _ _ m2)
  refine ⟨x1, x2, hx1, hx2, ?_⟩
  simp [process_query, h, pyFloats_two t1 t2 x1 x2 hx1 hx2]

/-- Witness for C1 at the concrete query "add 8 and 12". -/
theorem c1_witness :
    ∃ x1 x2 : ℚ, pyFloat ['8'] = some x1 ∧ pyFloat ['1', '2'] = some x2 ∧
      process_query addStub showStub "add 8 and 12" =
        renderOutcome showStub (addStub x1 x2) :=
  c1_operands_in_order addStub showStub "add 8 and 12" ['8'] ['1', '2'] (by decide)

/-- C4: with zero pattern matches `process_query` reports that no
numbers were found, with exactly one match that only one number was
found, and with more than two matches that more than two were found. -/
theorem c4_match_count_errors (addFn : ℚ → ℚ → AddNumbersResponse)
    (sf : ℚ → String) (q : String) :
    ((findAll (pyClean q)).length = 0 →
      process_query addFn sf q =
        "Error: No numbers found in the query. Please provide two numbers.") ∧
    ((findAll (pyClean q)).length = 1 →
      process_query addFn sf q =
        "Error: Only one number found. Please provide exactly two numbers.") ∧
    (2 < (findAll (pyClean q)).length →
      process_query addFn sf q =
        "Error: More than two numbers found. Please provide exactly two numbers.") := by
  obtain ⟨xs, hxs⟩ := Option.isSome_iff_exists.mp
    (pyFloats_isSome _ fun t ht => tokensParse _ t ht)
  have hlen := pyFloats_length _ xs hxs
  refine ⟨?_, ?_, ?_⟩
  · intro hc
    have hx : xs = [] := List.length_eq_zero.mp (by rw [hlen, hc])
    subst hx
    simp [process_query, hxs]
  · intro hc
    obtain ⟨x, hx⟩ := List.length_eq_one.mp (show xs.length = 1 by rw [hlen, hc])
    subst hx
    simp [process_query, hxs]
  · intro hc
    rcases xs with _ | ⟨a, _ | ⟨b, _ | ⟨c, l⟩⟩⟩
    · simp at hlen; omega
    · simp at hlen; omega
    · simp at hlen; omega
    · simp [process_query, hxs]

/-- Witness for C4 at the three concrete inputs named by the claim. -/
theorem c4_witness :
    process_query addStub showStub "no digits here" =
      "Error: No numbers found in the query. Please provide two numbers." ∧
    process_query addStub showStub "only 5 here" =
      "Error: Only one number found. Please provide exactly two numbers." ∧
    process_query addStub showStub "5, 6, and 7" =
      "Error: More than two numbers found. Please provide exactly two numbers." :=
  ⟨(c4_match_count_errors addStub showStub "no digits here").1 (by decide),
   (c4_match_count_errors addStub showStub "only 5 here").2.1 (by decide),
   (c4_match_count_errors addStub showStub "5, 6, and 7").2.2 (by decide)⟩

/-- Every branch of the response handler sets `result` exactly when it
sets `success`. -/
theorem handleResponse_invariant (status : Nat) (bodyJson : Option JValue) :
    ((handleResponse status bodyJson).result).isSome =
      (handleResponse status bodyJson).success := by
  unfold handleResponse
  repeat' split
  all_goals rfl

/-- The non-200 branch always fails with no value. -/
theorem handleResponse_non200 (status : Nat) (data : JValue) (hs : ¬status = 200) :
    (handleResponse status (some data)).success = false ∧
      (handleResponse status (some data)).result = none := by
  unfold handleResponse
  repeat' split
  all_goals first
  | exact ⟨rfl, rfl⟩
  | exact absurd (by assumption) hs

/-- C3: with any credential field empty, add returns at once with
success = false, a message containing "credentials not configured", no
value, and an empty request trace (no network call). -/
theorem c3_no_call_unconfigured (c : Credentials) (n1 n2 : ℚ)
    (net : Request → HttpOutcome)
    (h : c.instance_url = "" ∨ c.username = "" ∨ c.password = "") :
    add_numbers c n1 n2 net =
      (⟨false, "ServiceNow credentials not configured", none⟩, []) ∧
    hasSubstr "credentials not configured".toList
      "ServiceNow credentials not configured".toList = true := by
  refine ⟨?_, by decide⟩
  unfold add_numbers
  rw [if_pos h]

/-- Witness for C3: empty instance URL. -/
theorem c3_witness :
    add_numbers credsNoUrl 8 12 (netWith (HttpOutcome.response 200 none)) =
      (⟨false, "ServiceNow credentials not configured", none⟩, []) ∧
    hasSubstr "credentials not configured".toList
      "ServiceNow credentials not configured".toList = true :=
  c3_no_call_unconfigured credsNoUrl 8 12 _ (Or.inl rfl)

/-- C9: a response body that is not JSON yields the fixed message,
whatever the HTTP status is; the JSON check precedes status handling. -/
theorem c9_invalid_json (c : Credentials) (n1 n2 : ℚ)
    (net : Request → HttpOutcome) (status : Nat)
    (h1 : ¬(c.instance_url = "" ∨ c.username = "" ∨ c.password = ""))
    (h2 : net (mkReq c n1 n2) = HttpOutcome.response status none) :
    (add_numbers c n1 n2 net).1 =
      ⟨false, "Invalid JSON response from server", none⟩ := by
  simp [add_numbers, h1, h2, handleResponse]

/-- Witness for C9 at status 500. -/
theorem c9_witness :
    (add_numbers credsOk 8 12 (netWith (HttpOutcome.response 500 none))).1 =
      ⟨false, "Invalid JSON response from server", none⟩ :=
  c9_invalid_json credsOk 8 12 _ 500 (by decide) rfl

/-- C6: transport failures and unexpected exceptions during the call
are caught and reported as failed responses (never propagated): a
RequestException yields "Request failed: " plus the error text, any
other exception "Unexpected error: " plus the error text. -/
theorem c6_exceptions_caught (c : Credentials) (n1 n2 : ℚ)
    (net : Request → HttpOutcome)
    (h1 : ¬(c.instance_url = "" ∨ c.username = "" ∨ c.password = "")) :
    (∀ d, net (mkReq c n1 n2) = HttpOutcome.requestException d →
      (add_numbers c n1 n2 net).1 = ⟨false, "Request failed: " ++ d, none⟩) ∧
    (∀ d, net (mkReq c n1 n2) = HttpOutcome.otherException d →
      (add_numbers c n1 n2 net).1 = ⟨false, "Unexpected error: " ++ d, none⟩) := by
  constructor <;> intro d h2 <;> simp [add_numbers, h1, h2]

/-- Witness for C6: a timeout. -/
theorem c6_witness :
    (add_numbers credsOk 8 12 (netWith (HttpOutcome.requestException "timed out"))).1 =
      ⟨false, "Request failed: " ++ "timed out", none⟩ :=
  (c6_exceptions_caught credsOk 8 12 _ (by decide)).1 "timed out" rfl

/-- C8: on every path, the returned value is present exactly when
success is true. -/
theorem c8_value_iff_success (c : Credentials) (n1 n2 : ℚ)
    (net : Request → HttpOutcome) :
    ((add_numbers c n1 n2 net).1.result).isSome =
      (add_numbers c n1 n2 net).1.success := by
  simp only [add_numbers]
  by_cases h : c.instance_url = "" ∨ c.username = "" ∨ c.password = ""
  · simp [h]
  · rcases hnet : net (mkReq c n1 n2) with ⟨st, bj⟩ | d | d
    · simp [h, hnet, handleResponse_invariant st bj]
    · simp [h, hnet]
    · simp [h, hnet]

/-- C2 counterexample: an HTTP 200 body whose inner value is the JSON
boolean `true` — not a numeric value — nevertheless yields
succeeded = true with value 1.0, because Python `bool` is a subclass of
`int` and passes the `isinstance(result_value, (int, float))` check.
The claim required succeeded = false with the format-error message for
this deviation. -/
theorem c2_counterexample :
    (add_numbers credsOk 8 12 (netWith (HttpOutcome.response 200
        (some (JValue.obj [("result", JValue.obj [("result", JValue.bool true)])]))))).1 =
      ⟨true, "Addition successful", some 1⟩ ∧
    isJsonNumber (JValue.bool true) = false := by
  constructor
  · rfl
  · rfl

/-- C2 as amended: for a 200 response whose JSON body is an object,
the call succeeds with the coerced inner value exactly when the outer
"result" key holds an object whose inner "result" key holds an int,
float, or bool (bools coerce to 1.0/0.0); every other object body
yields succeeded = false with "Invalid response format from API". -/
theorem c2_success_characterisation (c : Credentials) (n1 n2 : ℚ)
    (net : Request → HttpOutcome) (m : List (String × JValue))
    (h1 : ¬(c.instance_url = "" ∨ c.username = "" ∨ c.password = ""))
    (h2 : net (mkReq c n1 n2) = HttpOutcome.response 200 (some (JValue.obj m))) :
    (∃ m2 w, m.lookup "result" = some (JValue.obj m2) ∧
        m2.lookup "result" = some w ∧ isPyNumber w = true ∧
        (add_numbers c n1 n2 net).1 =
          ⟨true, "Addition successful", some (pyFloatOfNum w)⟩) ∨
    ((∀ m2 w, ¬(m.lookup "result" = some (JValue.obj m2) ∧
        m2.lookup "result" = some w ∧ isPyNumber w = true)) ∧
      (add_numbers c n1 n2 net).1 =
        ⟨false, "Invalid response format from API", none⟩) := by
  have hr : (add_numbers c n1 n2 net).1 = handleResponse 200 (some (JValue.obj m)) := by
    simp [add_numbers, h1, h2]
  rw [hr]
  rcases hl : m.lookup "result" with _ | v
  · right
    refine ⟨fun m2 w hw => Option.noConfusion hw.1, ?_⟩
    simp [handleResponse, pyContains, hl]
  · rcases v with m2' | xs | s | n | qv | b | _
    case obj =>
      rcases hl2 : m2'.lookup "result" with _ | w
      · right
        refine ⟨fun m2 w hw => ?_, ?_⟩
        · obtain rfl : m2' = m2 := JValue.obj.inj (Option.some.inj hw.1)
          exact Option.noConfusion (hl2 ▸ hw.2.1)
        · simp [handleResponse, pyContains, pyIndex, hl, hl2]
      · by_cases hn : isPyNumber w = true
        · left
          exact ⟨m2', w, rfl, hl2, hn,
            by simp [handleResponse, pyContains, pyIndex, hl, hl2, hn]⟩
        · right
          refine ⟨fun m2 w2 hw => ?_, ?_⟩
          · obtain rfl : m2' = m2 := JValue.obj.inj (Option.some.inj hw.1)
            obtain rfl : w = w2 := Option.some.inj (hl2 ▸ hw.2.1).symm |>.symm
            exact hn hw.2.2
          · simp [handleResponse, pyContains, pyIndex, hl, hl2, hn]
    all_goals
      right
      refine ⟨fun m2 w hw => JValue.noConfusion (Option.some.inj hw.1), ?_⟩
      simp [handleResponse, pyContains, pyIndex, hl]

/-- Witness for amended C2: 200 with body containing nested result 42
yields success with value 42.0 (the claim's own example). -/
theorem c2_witness :
    ((∃ m2 w,
        (List.lookup "result" [("result", JValue.obj [("result", JValue.jint 42)])]) =
          some (JValue.obj m2) ∧
        m2.lookup "result" = some w ∧ isPyNumber w = true ∧
        (add_numbers credsOk 8 12 (netWith (HttpOutcome.response 200
          (some (JValue.obj [("result", JValue.obj [("result", JValue.jint 42)])]))))).1 =
          ⟨true, "Addition successful", some (pyFloatOfNum w)⟩) ∨
    ((∀ m2 w, ¬((List.lookup "result" [("result", JValue.obj [("result", JValue.jint 42)])]) =
          some (JValue.obj m2) ∧ m2.lookup "result" = some w ∧ isPyNumber w = true)) ∧
      (add_numbers credsOk 8 12 (netWith (HttpOutcome.response 200
        (some (JValue.obj [("result", JValue.obj [("result", JValue.jint 42)])]))))).1 =
        ⟨false, "Invalid response format from API", none⟩)) ∧
    (add_numbers credsOk 8 12 (netWith (HttpOutcome.response 200
      (some (JValue.obj [("result", JValue.obj [("result", JValue.jint 42)])]))))).1 =
      ⟨true, "Addition successful", some (42 : ℚ)⟩ :=
  ⟨c2_success_characterisation credsOk 8 12 _ _ (by decide) rfl, by
    norm_num [add_numbers, credsOk, mkReq, netWith, handleResponse, pyContains,
      pyIndex, isPyNumber, pyFloatOfNum]
    rfl⟩

/-- C5 counterexample: a 500 response whose JSON body is `[]` (parses
as JSON, but has no `.get`) is reported through the catch-all
"Unexpected error" path, not as "API Error: Unknown error" as the
claim's default demands. -/
theorem c5_counterexample :
    (add_numbers credsOk 8 12 (netWith (HttpOutcome.response 500
        (some (JValue.arr []))))).1.success = false ∧
    hasSubstr "API Error".toList
      (add_numbers credsOk 8 12 (netWith (HttpOutcome.response 500
        (some (JValue.arr []))))).1.message.toList = false ∧
    hasSubstr "Unexpected error".toList
      (add_numbers credsOk 8 12 (netWith (HttpOutcome.response 500
        (some (JValue.arr []))))).1.message.toList = true := by
  refine ⟨rfl, by decide, by decide⟩

/-- C5 as amended: for a non-200 status whose JSON body is an object in
which the "error" key, when present, holds an object, the call fails
with message "API Error: " followed by the error.message field,
defaulting to "Unknown error" when the field or the "error" key is
absent.  (Other body shapes fall through to the catch-all handler.) -/
theorem c5_api_error_message (c : Credentials) (n1 n2 : ℚ)
    (net : Request → HttpOutcome) (status : Nat) (m : List (String × JValue))
    (h1 : ¬(c.instance_url = "" ∨ c.username = "" ∨ c.password = ""))
    (hs : ¬status = 200)
    (h2 : net (mkReq c n1 n2) = HttpOutcome.response status (some (JValue.obj m))) :
    (add_numbers c n1 n2 net).1.success = false ∧
    (add_numbers c n1 n2 net).1.result = none ∧
    (m.lookup "error" = none →
      (add_numbers c n1 n2 net).1.message = "API Error: Unknown error") ∧
    (∀ m2, m.lookup "error" = some (JValue.obj m2) →
      ((m2.lookup "message" = none →
        (add_numbers c n1 n2 net).1.message = "API Error: Unknown error") ∧
       (∀ v, m2.lookup "message" = some v →
        (add_numbers c n1 n2 net).1.message = "API Error: " ++ pyStr v))) := by
  have hr : (add_numbers c n1 n2 net).1 = handleResponse status (some (JValue.obj m)) := by
    simp [add_numbers, h1, h2]
  rw [hr]
  refine ⟨(handleResponse_non200 status _ hs).1, (handleResponse_non200 status _ hs).2,
    ?_, ?_⟩
  · intro he
    simp [handleResponse, hs, pyGet, he, pyStr]
  · intro m2 he
    constructor
    · intro hm
      simp [handleResponse, hs, pyGet, he, hm, pyStr]
    · intro v hm
      simp [handleResponse, hs, pyGet, he, hm]

/-- Witness for amended C5: 500 with error.message "boom" (the claim's
own example); the message contains "boom". -/
theorem c5_witness :
    (add_numbers credsOk 8 12 (netWith (HttpOutcome.response 500
        (some (JValue.obj [("error", JValue.obj [("message", JValue.str "boom")])]))))).1.message =
      "API Error: " ++ pyStr (JValue.str "boom") ∧
    hasSubstr "boom".toList ("API Error: " ++ pyStr (JValue.str "boom")).toList = true :=
  ⟨((c5_api_error_message credsOk 8 12
      (netWith (HttpOutcome.response 500
        (some (JValue.obj [("error", JValue.obj [("message", JValue.str "boom")])]))))
      500 [("error", JValue.obj [("message", JValue.str "boom")])]
      (by decide) (by decide) rfl).2.2.2
      [("message", JValue.str "boom")] rfl).2 (JValue.str "boom") rfl,
   by decide⟩

theorem dropWhile_head_not {α : Type} (p : α → Bool) (l : List α) (c : α)
    (h : (l.dropWhile p).head? = some c) : p c = false := by
  induction l with
  | nil => simp at h
  | cons a r ih =>
      rw [List.dropWhile_cons] at h
      by_cases ha : p a = true
      · rw [if_pos ha] at h; exact ih h
      · rw [if_neg ha] at h
        simp only [List.head?_cons, Option.some.injEq] at h
        subst h
        simpa using ha

/-- Stripping trailing slashes leaves no trailing slash. -/
theorem rstripSlashes_no_trailing (s : String) :
    (rstripSlashes s).toList.getLast? ≠ some '/' := by
  intro h
  have he : (rstripSlashes s).toList =
      (s.toList.reverse.dropWhile (fun c => c = '/')).reverse := rfl
  rw [he, List.getLast?_reverse] at h
  have hp := dropWhile_head_not (fun c => c = '/') s.toList.reverse '/' h
  simp at hp

/-- C7 counterexample: a base URL ending in a slash, as entered through
the sidebar, is used verbatim: the requested URL keeps the double
slash, differing from what trailing-slash stripping would give. -/
theorem c7_counterexample :
    ((add_numbers credsSlash 1 2 (netWith (HttpOutcome.response 200 none))).2.map
        Request.url) =
      ["https://x//api/1756572/addition_of_two_numbers/add"] ∧
    rstripSlashes credsSlash.instance_url ++ "/api/1756572/addition_of_two_numbers/add" =
      "https://x/api/1756572/addition_of_two_numbers/add" ∧
    ("https://x//api/1756572/addition_of_two_numbers/add" : String) ≠
      "https://x/api/1756572/addition_of_two_numbers/add" := by
  refine ⟨rfl, by decide, by decide⟩

/-- C7 as amended: add concatenates the stored base URL verbatim with
the fixed path and sends the JSON payload num1/num2; trailing slashes
are stripped only when the URL is loaded from the environment at client
initialisation. -/
theorem c7_url_concatenation (c : Credentials) (n1 n2 : ℚ)
    (net : Request → HttpOutcome) (env : String → Option String)
    (h1 : ¬(c.instance_url = "" ∨ c.username = "" ∨ c.password = "")) :
    ((add_numbers c n1 n2 net).2.map fun r => (r.url, r.payload)) =
      [(c.instance_url ++ "/api/1756572/addition_of_two_numbers/add",
        JValue.obj [("num1", JValue.jfloat n1), ("num2", JValue.jfloat n2)])] ∧
    (clientInit env).instance_url.toList.getLast? ≠ some '/' := by
  constructor
  · rcases ho : net (mkReq c n1 n2) with ⟨st, bj⟩ | d | d <;>
      simp [add_numbers, h1, ho] <;> simp [mkReq]
  · exact rstripSlashes_no_trailing _

/-- Witness for amended C7 at concrete credentials and environment. -/
theorem c7_witness :
    ((add_numbers credsOk 1 2 (netWith (HttpOutcome.response 200 none))).2.map
        fun r => (r.url, r.payload)) =
      [(credsOk.instance_url ++ "/api/1756572/addition_of_two_numbers/add",
        JValue.obj [("num1", JValue.jfloat 1), ("num2", JValue.jfloat 2)])] ∧
    (clientInit (fun _ => some "https://y///")).instance_url.toList.getLast? ≠ some '/' :=
  c7_url_concatenation credsOk 1 2 _ _ (by decide)
